import Mathlib

/-!
Verification development for the vnpy trader UI widgets
(src/vnpy/trader/ui/widget.py) and the chart widget
(src/vnpy/chart/widget.py), together with the event-dispatcher
behaviour described by the specification.

The monitor classes are shallowly embedded: a monitor is a table of rows,
each row a list of cells holding a rendered text and the data object the
cell was constructed from.  Python exceptions escaping a method are made
explicit as an `Option PyErr` (or `Except`) result; a raised exception
leaves behind exactly the mutations performed before the raising statement,
as in Python.
-/

namespace VnpyUI

/-- Python exceptions that the embedded code can raise. -/
inductive PyErr
  | attributeError
  | keyError
  | typeError
  | nameError (n : String)
deriving DecidableEq, Repr

/-- The cell classes defined in src/vnpy/trader/ui/widget.py.
`base` = BaseCell, `enumC` = EnumCell, `direction` = DirectionCell,
`bid` = BidCell, `ask` = AskCell, `pnl` = PnlCell, `time` = TimeCell,
`date` = DateCell, `msg` = MsgCell. -/
inductive CellClass
  | base
  | enumC
  | direction
  | bid
  | ask
  | pnl
  | time
  | date
  | msg
deriving DecidableEq, Repr

/-- The evaluation-relevant attributes of a Python value passed to a cell:
its `str` rendering (used by `BaseCell.__init__`), its truthiness
(used by `EnumCell.set_content`), whether it is `None`
(used by `TimeCell.set_content` and `DateCell.set_content`), and the text a
Time/Date cell would render for it. -/
structure Content where
  text : String
  truthy : Bool
  isNone : Bool
  timeText : String
deriving DecidableEq, Repr

/-- Outcome of calling `cell.set_content(content, data)` on a cell of the given
class, as written in src/vnpy/trader/ui/widget.py:

* `BaseCell`, `BidCell`, `AskCell` and `MsgCell` define no `set_content`
  method at all, so the attribute lookup raises `AttributeError`;
* `PnlCell.set_content` unconditionally calls `super().set_content`, and the
  superclass `BaseCell` has no such attribute, so it raises `AttributeError`;
* `EnumCell.set_content` calls `super().set_content` only when the content is
  truthy (raising `AttributeError` then, for the same reason) and otherwise
  does nothing;
* `DirectionCell.set_content` first calls `EnumCell.set_content` (same
  behaviour as above; on the falsy path it only changes the foreground
  colour);
* `TimeCell.set_content` and `DateCell.set_content` return without any change
  when the content is `None` and otherwise set the cell text (and rebind the
  cell data).

`Except.ok none` means the call succeeded without changing the cell text,
`Except.ok (some t)` means the cell text became `t` (and the cell data was
rebound to the event data). -/
def setContent : CellClass → Content → Except PyErr (Option String)
  | .base, _ => .error .attributeError
  | .bid, _ => .error .attributeError
  | .ask, _ => .error .attributeError
  | .msg, _ => .error .attributeError
  | .pnl, _ => .error .attributeError
  | .enumC, c => if c.truthy then .error .attributeError else .ok none
  | .direction, c => if c.truthy then .error .attributeError else .ok none
  | .time, c => if c.isNone then .ok none else .ok (some c.timeText)
  | .date, c => if c.isNone then .ok none else .ok (some c.timeText)

/-- One column description from the `headers` dict of a monitor: the field name,
the cell class, the update flag, and the `getattr` view of the event data as
a `Content`. -/
structure HeaderSpec (δ : Type) where
  name : String
  cls : CellClass
  update : Bool
  get : δ → Content

/-- One table cell: its displayed text and the `_data` object captured by the
cell (set by the constructor and rebound by a successful `set_content`). -/
structure Cell (δ : Type) where
  text : String
  data : δ
deriving DecidableEq, Repr

/-- One table row: the `data_key` value it was registered under (when the
monitor has a non-empty `data_key`), its cells in header order, and the Qt
hidden flag. -/
structure TableRow (δ : Type) where
  key : Option String
  cells : List (Cell δ)
  hidden : Bool
deriving DecidableEq, Repr

/-- The state of a `BaseMonitor` table: rows from top to bottom. -/
structure MonState (δ : Type) where
  rows : List (TableRow δ)
deriving DecidableEq, Repr

/-- The empty monitor table. -/
def emptyMon (δ : Type) : MonState δ := ⟨[]⟩

/-- `BaseMonitor.insert_new_row`: insert a row at the top of the table; every
column gets a freshly constructed cell whose text is `str(content)` and whose
data is the event data.  When the monitor has a `data_key`, the row is
registered in `self.cells` under the key read from the data. -/
def insertNewRow {δ : Type} (hs : List (HeaderSpec δ)) (dataKey : Option (δ → String))
    (s : MonState δ) (d : δ) : MonState δ :=
  ⟨⟨dataKey.map (fun kf => kf d), hs.map (fun h => ⟨(h.get d).text, d⟩), false⟩ :: s.rows⟩

/-- The loop body of `BaseMonitor.update_old_row`: walk the columns in header
order; columns without the update flag are not in `row_cells` and are skipped;
for each updatable column call `set_content`.  The boolean argument records
whether an exception has already been raised: Python stops executing the loop
then, so all later cells keep their previous state.  Returns the cells after
the call together with the raised-exception flag. -/
def updateCells {δ : Type} (d : δ) :
    List (HeaderSpec δ) → List (Cell δ) → Bool → List (Cell δ) × Bool
  | [], cs, err => (cs, err)
  | _ :: _, [], err => ([], err)
  | h :: hs, c :: cs, err =>
    if err || !h.update then
      let r := updateCells d hs cs err
      (c :: r.1, r.2)
    else
      match setContent h.cls (h.get d) with
      | .error _ =>
        let r := updateCells d hs cs true
        (c :: r.1, r.2)
      | .ok none =>
        let r := updateCells d hs cs false
        (c :: r.1, r.2)
      | .ok (some t) =>
        let r := updateCells d hs cs false
        (⟨t, d⟩ :: r.1, r.2)

/-- Apply `update_old_row` to the (unique) row registered under key `k`:
the `self.cells` dict resolves the key to the updatable cells of that row. -/
def updateFirstRow {δ : Type} (hs : List (HeaderSpec δ)) (d : δ) (k : String) :
    List (TableRow δ) → List (TableRow δ) × Bool
  | [] => ([], false)
  | r :: rs =>
    if r.key = some k then
      let u := updateCells d hs r.cells false
      (⟨r.key, u.1, r.hidden⟩ :: rs, u.2)
    else
      let t := updateFirstRow hs d k rs
      (r :: t.1, t.2)

/-- `BaseMonitor.process_event`: without a `data_key` every event inserts a
new row; with a `data_key`, an unseen key inserts a new row and a seen key
runs `update_old_row` on the registered row.  The second component is the
exception escaping the call, if any. -/
def processEvent {δ : Type} (hs : List (HeaderSpec δ)) (dataKey : Option (δ → String))
    (s : MonState δ) (d : δ) : MonState δ × Option PyErr :=
  match dataKey with
  | none => (insertNewRow hs none s d, none)
  | some kf =>
    let k := kf d
    if s.rows.any (fun r => r.key = some k) then
      let u := updateFirstRow hs d k s.rows
      (⟨u.1⟩, if u.2 then some .attributeError else none)
    else
      (insertNewRow hs (some kf) s d, none)

/-- The loop of `BaseMonitor.save_csv` over the data rows: iterate the table
rows from top to bottom, skip every row hidden at export time, and emit the
cell texts of the remaining rows.  (In this model every column of a row holds
a cell, as `insert_new_row` fills every column, so the `item is None` branch
writing an empty string is never taken.) -/
def saveRows {δ : Type} : List (TableRow δ) → List (List String)
  | [] => []
  | r :: rs => if r.hidden then saveRows rs else (r.cells.map Cell.text) :: saveRows rs

/-- `BaseMonitor.save_csv`: one header row holding the display labels,
followed by the visible data rows. -/
def save_csv {δ : Type} (labels : List String) (s : MonState δ) : List (List String) :=
  labels :: saveRows s.rows

/-- The `Content` view of a Python string attribute: `str` is the identity,
an empty string is falsy, a string is never `None`. -/
def strContent (s : String) : Content := ⟨s, !(s == ""), false, ""⟩

/-- The `Content` view of a numeric attribute (price, volume, traded): the
rendering stands for Python `str`; zero is falsy. -/
def qContent (q : ℚ) : Content := ⟨toString q, !(q == 0), false, ""⟩

/-- The `Content` view of an enum attribute (exchange, direction, status and
so on), identified by its member rendering; enum members are always truthy. -/
def enumContent (v : String) : Content := ⟨v, true, false, ""⟩

/-- The `Content` view of a datetime attribute, modelled as an optional
timestamp: `none` stands for Python `None`. -/
def timeContent : Option Nat → Content
  | none => ⟨"None", false, true, ""⟩
  | some n => ⟨toString n, true, false, toString n⟩

/-- The order status enum (vnpy/trader/constant.py):
Submitting, NotTraded, PartTraded, AllTraded, Cancelled, Rejected. -/
inductive Status
  | submitting
  | notTraded
  | partTraded
  | allTraded
  | cancelled
  | rejected
deriving DecidableEq, Repr

/-- Rendering of a status enum member. -/
def statusText : Status → String
  | .submitting => "Submitting"
  | .notTraded => "NotTraded"
  | .partTraded => "PartTraded"
  | .allTraded => "AllTraded"
  | .cancelled => "Cancelled"
  | .rejected => "Rejected"

/-- Modelled from the spec: the terminal statuses of an order are
AllTraded, Cancelled and Rejected. -/
def Status.isTerminal : Status → Bool
  | .allTraded => true
  | .cancelled => true
  | .rejected => true
  | _ => false

/-- Modelled from the spec: `OrderData.is_active` (vnpy/trader/object.py is
not under src/) — an active order is an order not yet in a terminal status. -/
def Status.is_active (s : Status) : Bool := !s.isTerminal

/-- The fields of `OrderData` displayed by `OrderMonitor` (plus `orderid`,
`vt_orderid` and `is_active`, which the widgets read). Enum-valued fields are
identified by their member rendering. -/
structure OrderData where
  gateway_name : String
  symbol : String
  exchange : String
  type : String
  direction : String
  offset : String
  price : ℚ
  volume : ℚ
  traded : ℚ
  status : Status
  datetime : Option Nat
  reference : String
  orderid : String
  vt_orderid : String
deriving DecidableEq, Repr

/-- `OrderMonitor.headers` in source order (src/vnpy/trader/ui/widget.py):
only `traded`, `status` and `datetime` carry the update flag; in particular
`volume` does not, and the updatable `traded` column uses `BaseCell`. -/
def orderHeaders : List (HeaderSpec OrderData) :=
  [ ⟨"gateway_name", .base, false, fun o => strContent o.gateway_name⟩,
    ⟨"symbol", .base, false, fun o => strContent o.symbol⟩,
    ⟨"exchange", .enumC, false, fun o => enumContent o.exchange⟩,
    ⟨"type", .enumC, false, fun o => enumContent o.type⟩,
    ⟨"direction", .direction, false, fun o => enumContent o.direction⟩,
    ⟨"offset", .enumC, false, fun o => enumContent o.offset⟩,
    ⟨"price", .base, false, fun o => qContent o.price⟩,
    ⟨"volume", .base, false, fun o => qContent o.volume⟩,
    ⟨"traded", .base, true, fun o => qContent o.traded⟩,
    ⟨"status", .enumC, true, fun o => enumContent (statusText o.status)⟩,
    ⟨"datetime", .time, true, fun o => timeContent o.datetime⟩,
    ⟨"reference", .base, false, fun o => strContent o.reference⟩ ]

/-- `OrderMonitor.process_event`: `BaseMonitor.process_event` with the order
headers, keyed by `vt_orderid`. -/
def orderProcessEvent (s : MonState OrderData) (d : OrderData) :
    MonState OrderData × Option PyErr :=
  processEvent orderHeaders (some OrderData.vt_orderid) s d

/-- Fold a sequence of order events through `OrderMonitor.process_event`,
keeping whatever table state each call leaves behind (an escaping exception
leaves the mutations made before it, as in Python). -/
def orderProcessAll (s : MonState OrderData) (es : List OrderData) : MonState OrderData :=
  es.foldl (fun a e => (orderProcessEvent a e).1) s

/-- The traded volume recorded for an order key: the `_data` captured by the
`traded` cell (column index 8) of the row registered under that key. -/
def recordedTraded (s : MonState OrderData) (k : String) : Option ℚ :=
  ((s.rows.find? (fun r => r.key = some k)).bind (fun r => r.cells[8]?)).map
    (fun c => c.data.traded)

/-- The column names registered in `row_cells` by `insert_new_row` for an
order row: exactly the headers carrying the update flag. -/
def orderRowCellNames : List String :=
  (orderHeaders.filter (fun h => h.update)).map (fun h => h.name)

/-- Set the Qt hidden flag of the first row registered under key `k`. -/
def setHiddenRows {δ : Type} (k : String) (hid : Bool) : List (TableRow δ) → List (TableRow δ)
  | [] => []
  | r :: rs => if r.key = some k then ⟨r.key, r.cells, hid⟩ :: rs else r :: setHiddenRows k hid rs

/-- Set the Qt hidden flag of the row registered under key `k`
(`showRow` / `hideRow` on the row index of the cells of that row). -/
def setHiddenForKey {δ : Type} (s : MonState δ) (k : String) (hid : Bool) : MonState δ :=
  ⟨setHiddenRows k hid s.rows⟩

/-- `ActiveOrderMonitor.process_event`: first run the inherited
`process_event`; an exception escaping it propagates.  Otherwise look up
`row_cells["volume"]` — a `KeyError` when `volume` is not among the
registered updatable columns — and then show or hide the row depending on
`order.is_active()`. -/
def activeProcessEvent (s : MonState OrderData) (d : OrderData) :
    MonState OrderData × Option PyErr :=
  let p := orderProcessEvent s d
  match p.2 with
  | some e => (p.1, some e)
  | none =>
    if orderRowCellNames.contains "volume" then
      (setHiddenForKey p.1 d.vt_orderid (!(Status.is_active d.status)), none)
    else
      (p.1, some .keyError)

/-- The fields of `TickData` displayed by `TickMonitor`. -/
structure TickData where
  symbol : String
  exchange : String
  name : String
  last_price : ℚ
  volume : ℚ
  open_price : ℚ
  high_price : ℚ
  low_price : ℚ
  bid_price_1 : ℚ
  bid_volume_1 : ℚ
  ask_price_1 : ℚ
  ask_volume_1 : ℚ
  datetime : Option Nat
  gateway_name : String
  vt_symbol : String
deriving DecidableEq, Repr

/-- `TickMonitor.headers` in source order: the first updatable column is
`name`, whose cell class is `BaseCell`. -/
def tickHeaders : List (HeaderSpec TickData) :=
  [ ⟨"symbol", .base, false, fun t => strContent t.symbol⟩,
    ⟨"exchange", .enumC, false, fun t => enumContent t.exchange⟩,
    ⟨"name", .base, true, fun t => strContent t.name⟩,
    ⟨"last_price", .base, true, fun t => qContent t.last_price⟩,
    ⟨"volume", .base, true, fun t => qContent t.volume⟩,
    ⟨"open_price", .base, true, fun t => qContent t.open_price⟩,
    ⟨"high_price", .base, true, fun t => qContent t.high_price⟩,
    ⟨"low_price", .base, true, fun t => qContent t.low_price⟩,
    ⟨"bid_price_1", .bid, true, fun t => qContent t.bid_price_1⟩,
    ⟨"bid_volume_1", .bid, true, fun t => qContent t.bid_volume_1⟩,
    ⟨"ask_price_1", .ask, true, fun t => qContent t.ask_price_1⟩,
    ⟨"ask_volume_1", .ask, true, fun t => qContent t.ask_volume_1⟩,
    ⟨"datetime", .time, true, fun t => timeContent t.datetime⟩,
    ⟨"gateway_name", .base, false, fun t => strContent t.gateway_name⟩ ]

/-- `TickMonitor` event processing: `BaseMonitor.process_event` with the tick
headers, keyed by `vt_symbol`. -/
def tickProcessEvent (s : MonState TickData) (d : TickData) :
    MonState TickData × Option PyErr :=
  processEvent tickHeaders (some TickData.vt_symbol) s d

/-- The form state of `TradingWidget` when its send button is clicked.
The price and volume line edits carry a `QDoubleValidator` with bottom 0, so
their text is either empty (`none`) or a non-negative number (`some q`);
the combo boxes hold the selected enum member values and the gateway name. -/
structure TradingInputs where
  symbol : String
  volume : Option ℚ
  price : Option ℚ
  exchange : String
  direction : String
  orderType : String
  offset : String
  gateway : String
deriving DecidableEq, Repr

/-- The `OrderRequest` object built by `TradingWidget.send_order`. -/
structure OrderRequest where
  symbol : String
  exchange : String
  direction : String
  type : String
  volume : ℚ
  price : ℚ
  offset : String
  reference : String
deriving DecidableEq, Repr

/-- Outcome of `TradingWidget.send_order`: either a synchronous error dialog
(and an early return with no request forwarded), or exactly one
`OrderRequest` forwarded to the named gateway via `main_engine.send_order`. -/
inductive SendOrderOutcome
  | errorDialog (msg : String)
  | sent (req : OrderRequest) (gateway : String)
deriving DecidableEq, Repr

/-- `TradingWidget.send_order` (src/vnpy/trader/ui/widget.py): an empty
symbol field or an empty volume field shows a critical dialog and returns;
otherwise an `OrderRequest` is built from the form fields, with a blank price
field read as 0 and reference "ManualTrading", and forwarded to the selected
gateway. -/
def send_order (w : TradingInputs) : SendOrderOutcome :=
  if w.symbol = "" then
    .errorDialog "请输入合约代码"
  else
    match w.volume with
    | none => .errorDialog "请输入委托数量"
    | some v =>
      let price := w.price.getD 0
      .sent ⟨w.symbol, w.exchange, w.direction, w.orderType, v, price, w.offset,
        "ManualTrading"⟩ w.gateway

/-- Modelled from the spec: `CancelRequest{order_id, symbol, exchange}`
(vnpy/trader/object.py is not under src/). -/
structure CancelRequest where
  orderid : String
  symbol : String
  exchange : String
deriving DecidableEq, Repr

/-- Modelled from the spec: `OrderData.create_cancel_request`
(vnpy/trader/object.py is not under src/) builds the cancel request for an
order from its order id, symbol and exchange. -/
def create_cancel_request (o : OrderData) : CancelRequest :=
  ⟨o.orderid, o.symbol, o.exchange⟩

/-- The canonical collections of the state reconciliation engine reachable
through `main_engine`, as far as `TradingWidget.cancel_all` touches them:
the canonical order list. -/
structure MainEngineState where
  orders : List OrderData
deriving DecidableEq, Repr

/-- Modelled from the spec: `main_engine.get_all_active_orders`
(vnpy/trader/engine.py is not under src/) returns the orders not yet in a
terminal status, as a pure read of the canonical collection. -/
def get_all_active_orders (s : MainEngineState) : List OrderData :=
  s.orders.filter (fun o => o.status.is_active)

/-- The loop of `TradingWidget.cancel_all`: one
`main_engine.cancel_order(req, order.gateway_name)` command per order of the
queried list, in list order. -/
def cancelRequests : List OrderData → List (CancelRequest × String)
  | [] => []
  | o :: os => (create_cancel_request o, o.gateway_name) :: cancelRequests os

/-- `TradingWidget.cancel_all`: query the active orders and issue one cancel
command per order.  The method body contains no write to any canonical
collection, so the engine state is returned as it was. -/
def cancel_all (s : MainEngineState) : MainEngineState × List (CancelRequest × String) :=
  (s, cancelRequests (get_all_active_orders s))

/-- A Python value stored as the second tuple component of a
`ConnectDialog.widgets` entry.  The source stores the accessor method name as
a plain string ("currentText", "isChecked" or "text"); `pyType` stands for a
builtin type object such as `list` or `str` (what the upstream code stored),
kept so that the identity test and the call below are total on both shapes. -/
inductive FieldTypeVal
  | pyStr (s : String)
  | pyType (name : String)
deriving DecidableEq, Repr

/-- The Python test `field_type is list`: only the builtin type object `list`
is identical to `list`; a string never is. -/
def isListType : FieldTypeVal → Bool
  | .pyType n => n == "list"
  | .pyStr _ => false

/-- The Python call `field_type(text)`: calling a `str` object raises
`TypeError` (a string is not callable); calling a type object converts. -/
def callFieldType : FieldTypeVal → String → Except PyErr String
  | .pyStr _, _ => .error .typeError
  | .pyType _, arg => .ok arg

/-- The declarative `default_setting` field shapes of a gateway (spec §6):
a list of options, a boolean, or a plain value rendered as a string. -/
inductive FieldDefault
  | listF (opts : List String)
  | boolF (b : Bool)
  | strF (s : String)
deriving DecidableEq, Repr

/-- The `widgets` dict built by `ConnectDialog.init_ui`: one entry per
`default_setting` field (an empty option list is skipped), holding the field
name and the stored second tuple component — always a `pyStr` with the
accessor method name, exactly as the source writes
`(combo, "currentText")`, `(checkbox, "isChecked")` and `(line, "text")`. -/
def initWidgets : List (String × FieldDefault) → List (String × FieldTypeVal)
  | [] => []
  | (n, .listF opts) :: fs =>
    if opts.isEmpty then initWidgets fs
    else (n, .pyStr "currentText") :: initWidgets fs
  | (n, .boolF _) :: fs => (n, .pyStr "isChecked") :: initWidgets fs
  | (n, .strF _) :: fs => (n, .pyStr "text") :: initWidgets fs

/-- The loop of `ConnectDialog.connect` building the `setting` dict: for each
widgets entry, if `field_type is list` read the combo text, otherwise call
`field_type(line.text())` — only a `ValueError` from that call is caught
(yielding `field_type()`); any other exception propagates.  `entered` gives
the current text of each widget. -/
def buildSetting (entered : String → String) :
    List (String × FieldTypeVal) → Except PyErr (List (String × String))
  | [] => .ok []
  | (n, ft) :: ws =>
    if isListType ft then do
      let rest ← buildSetting entered ws
      .ok ((n, entered n) :: rest)
    else
      match callFieldType ft (entered n) with
      | .error e => .error e
      | .ok v => do
        let rest ← buildSetting entered ws
        .ok ((n, v) :: rest)

/-- The observable effects of a completed `ConnectDialog.connect`: the flat
record written by `save_json(self.filename, setting)` and the same map
forwarded to `main_engine.connect(setting, self.gateway_name)`. -/
structure ConnectEffects where
  savedFile : String
  savedSetting : List (String × String)
  forwardedSetting : List (String × String)
  forwardedGateway : String
deriving DecidableEq, Repr

/-- `ConnectDialog.connect`: build the setting map from the widgets, then
persist it to `connect_<lowercased gateway name>.json` and forward it to the
registry.  An exception escaping the build loop aborts the method before
anything is written or forwarded. -/
def connectDialogConnect (gatewayName : String) (entered : String → String)
    (widgets : List (String × FieldTypeVal)) : Except PyErr ConnectEffects :=
  match buildSetting entered widgets with
  | .error e => .error e
  | .ok setting =>
    .ok ⟨"connect_" ++ gatewayName.toLower ++ ".json", setting, setting, gatewayName⟩

/-- Modelled from the spec: an event of the dispatcher — a named type with a
payload (vnpy/event is not under src/). -/
structure EEvent where
  etype : String
  payload : Nat
deriving DecidableEq, Repr

/-- Modelled from the spec: the event dispatcher with a single delivery
thread.  `put` appends to the FIFO queue; the delivery thread drains the
queue front-first and hands each event to every handler registered for its
type.  `runEngine subs puts h` is the list of events handler `h` receives,
in delivery order, when the queue holds `puts` in enqueue order and `subs t`
is the subscriber set of type `t`. -/
def runEngine (subs : String → List Nat) (puts : List EEvent) (h : Nat) : List EEvent :=
  match puts with
  | [] => []
  | e :: es =>
    if h ∈ subs e.etype then e :: runEngine subs es h
    else runEngine subs es h

/-- A fragment of Python expression syntax, enough for the class-body
statement of `ChartWidget`. -/
inductive PyExpr
  | name (s : String)
  | attr (e : PyExpr) (a : String)
  | call (f : PyExpr) (arg : PyExpr)
deriving DecidableEq, Repr

/-- Python name resolution while evaluating an expression: an identifier not
bound in the enclosing scopes raises `NameError` naming it; attribute access
and calls evaluate their subexpressions first. -/
def evalExpr (env : List String) : PyExpr → Except PyErr Unit
  | .name s => if s ∈ env then .ok () else .error (.nameError s)
  | .attr e _ => evalExpr env e
  | .call f a => do
    evalExpr env f
    evalExpr env a

/-- The names bound at module scope of src/vnpy/chart/widget.py when the
`ChartWidget` class body evaluates: the bindings introduced by its import
statements (no top-level assignment precedes the class).  Python builtins
bind no name `ObjectDict` either. -/
def chartModuleScope : List String :=
  ["datetime", "sys", "pg", "plt", "QtGui", "QtWidgets", "QtCore", "BarData",
   "BarManager", "GREY_COLOR", "WHITE_COLOR", "CURSOR_COLOR", "BLACK_COLOR",
   "to_int", "NORMAL_FONT", "DatetimeAxis", "ChartItem"]

/-- The first statement of the `ChartWidget` class body:
`signal_new_bar = QtCore.Signal(ObjectDict)`. -/
def signalNewBarExpr : PyExpr :=
  .call (.attr (.name "QtCore") "Signal") (.name "ObjectDict")

/-- Importing src/vnpy/chart/widget.py executes the module top level, which
executes the `ChartWidget` class body, whose first statement evaluates
`signalNewBarExpr` in the module scope.  The import succeeds only if that
evaluation does. -/
def importChartWidgetModule : Except PyErr Unit :=
  evalExpr chartModuleScope signalNewBarExpr

/-- Sample order event: fresh order, nothing traded yet. -/
def sampleOrderNew : OrderData :=
  ⟨"CTP", "rb2401", "SHFE", "限价", "多", "开", 3500, 10, 0, .notTraded, some 1, "", "1", "CTP.1"⟩

/-- Sample order event: same order key as `sampleOrderNew`, 5 lots traded. -/
def sampleOrderPart : OrderData :=
  ⟨"CTP", "rb2401", "SHFE", "限价", "多", "开", 3500, 10, 5, .partTraded, some 2, "", "1", "CTP.1"⟩

/-- Sample order event: same order key, regressing traded volume 3 < 5. -/
def sampleOrderRegress : OrderData :=
  ⟨"CTP", "rb2401", "SHFE", "限价", "多", "开", 3500, 10, 3, .partTraded, some 3, "", "1", "CTP.1"⟩

/-- Sample order event: a cancelled (terminal, inactive) order on a fresh key. -/
def sampleOrderCancelled : OrderData :=
  ⟨"CTP", "rb2401", "SHFE", "限价", "多", "开", 3500, 10, 0, .cancelled, some 4, "", "9", "CTP.9"⟩

/-- Sample order: fully traded (terminal), for the cancel-all query. -/
def sampleOrderDone : OrderData :=
  ⟨"CTP", "rb2401", "SHFE", "限价", "多", "开", 3500, 10, 10, .allTraded, some 5, "", "7", "CTP.7"⟩

/-- Sample canonical engine state holding one active and one terminal order. -/
def sampleEngine : MainEngineState := ⟨[sampleOrderPart, sampleOrderDone]⟩

/-- Sample trading form: symbol and volume filled in, price blank. -/
def sampleInputs : TradingInputs := ⟨"rb2401", some 2, none, "SHFE", "多", "限价", "开", "CTP"⟩

/-- Sample trading form: volume field left empty. -/
def sampleInputsNoVolume : TradingInputs :=
  ⟨"rb2401", none, some 3500, "SHFE", "多", "限价", "开", "CTP"⟩

/-- Sample subscriber table: handler 0 subscribed to tick events only. -/
def sampleSubs : String → List Nat := fun s => if s == "eTick" then [0] else []

/-- Sample enqueue order of mixed-type events from a single producer. -/
def samplePuts : List EEvent := [⟨"eTick", 1⟩, ⟨"eOrder", 2⟩, ⟨"eTick", 3⟩]

/-- Sample tick event. -/
def sampleTick1 : TickData :=
  ⟨"rb2401", "SHFE", "螺纹钢", 3500, 100, 3490, 3510, 3480, 3499, 5, 3501, 7, some 1, "CTP",
   "rb2401.SHFE"⟩

/-- Sample tick event carrying the same `vt_symbol` as `sampleTick1`. -/
def sampleTick2 : TickData :=
  ⟨"rb2401", "SHFE", "螺纹钢", 3505, 120, 3490, 3510, 3480, 3504, 6, 3506, 8, some 2, "CTP",
   "rb2401.SHFE"⟩

/-- Once an exception has been raised, the remaining loop iterations of
`update_old_row` execute nothing: the cells stay as they are. -/
theorem updateCells_true {δ : Type} (d : δ) :
    ∀ (hs : List (HeaderSpec δ)) (cs : List (Cell δ)), updateCells d hs cs true = (cs, true)
  | [], _ => rfl
  | _ :: _, [] => rfl
  | h :: hs, c :: cs => by
    simp [updateCells, updateCells_true d hs cs]

/-- With the `OrderMonitor` headers, `update_old_row` never changes any cell:
the first eight columns are not updatable, and the ninth (`traded`) uses
`BaseCell`, whose missing `set_content` raises before any mutation. -/
theorem updateCells_order_fst (d : OrderData) (cs : List (Cell OrderData)) :
    (updateCells d orderHeaders cs false).1 = cs := by
  rcases cs with _ | ⟨c0, cs⟩
  · rfl
  rcases cs with _ | ⟨c1, cs⟩
  · rfl
  rcases cs with _ | ⟨c2, cs⟩
  · rfl
  rcases cs with _ | ⟨c3, cs⟩
  · rfl
  rcases cs with _ | ⟨c4, cs⟩
  · rfl
  rcases cs with _ | ⟨c5, cs⟩
  · rfl
  rcases cs with _ | ⟨c6, cs⟩
  · rfl
  rcases cs with _ | ⟨c7, cs⟩
  · rfl
  rcases cs with _ | ⟨c8, cs⟩
  · rfl
  simp [orderHeaders, updateCells, setContent, updateCells_true]

/-- `OrderMonitor.update_old_row` leaves the whole row list unchanged. -/
theorem updateFirstRow_order_fst (d : OrderData) (k : String) :
    ∀ rows : List (TableRow OrderData), (updateFirstRow orderHeaders d k rows).1 = rows
  | [] => rfl
  | r :: rs => by
    rcases r with ⟨rk, rc, rh⟩
    by_cases hk : rk = some k
    · simp [updateFirstRow, hk, updateCells_order_fst]
    · simp [updateFirstRow, hk, updateFirstRow_order_fst d k rs]

/-- The table state left behind by `OrderMonitor.process_event`: a seen key
leaves the table untouched (the update raises before mutating anything), an
unseen key prepends the new row. -/
theorem orderProcessEvent_fst (s : MonState OrderData) (d : OrderData) :
    (orderProcessEvent s d).1 =
      if s.rows.any (fun r => r.key = some d.vt_orderid) then s
      else insertNewRow orderHeaders (some OrderData.vt_orderid) s d := by
  by_cases h : s.rows.any (fun r => r.key = some d.vt_orderid) = true
  · simp [orderProcessEvent, processEvent, h, updateFirstRow_order_fst]
  · simp [orderProcessEvent, processEvent, h]

/-- Processing any further order event preserves the traded volume recorded
for an already-stored order key. -/
theorem recordedTraded_step (s : MonState OrderData) (d : OrderData) (k : String)
    (t : ℚ) (h : recordedTraded s k = some t) :
    recordedTraded (orderProcessEvent s d).1 k = some t := by
  rw [orderProcessEvent_fst]
  by_cases hany : s.rows.any (fun r => r.key = some d.vt_orderid) = true
  · rw [if_pos hany]
    exact h
  · rw [if_neg hany]
    have hne : ¬((some d.vt_orderid : Option String) = some k) := by
      intro he
      apply hany
      rcases hf : s.rows.find? (fun r => r.key = some k) with _ | r
      · unfold recordedTraded at h
        rw [hf] at h
        simp at h
      · rw [List.any_eq_true]
        refine ⟨r, List.mem_of_find?_eq_some hf, ?_⟩
        have := List.find?_some hf
        simpa [he] using this
    unfold recordedTraded at h ⊢
    rw [show (insertNewRow orderHeaders (some OrderData.vt_orderid) s d).rows
        = ⟨some d.vt_orderid, orderHeaders.map (fun h2 => ⟨(h2.get d).text, d⟩), false⟩
          :: s.rows from rfl]
    rw [List.find?_cons_of_neg]
    · exact h
    · simpa using hne

/-- The traded volume recorded for a key is preserved along any sequence of
processed order events. -/
theorem recordedTraded_fold (es : List OrderData) :
    ∀ (s : MonState OrderData) (k : String) (t : ℚ), recordedTraded s k = some t →
      recordedTraded (orderProcessAll s es) k = some t := by
  induction es with
  | nil => intro s k t h; exact h
  | cons e es ih =>
    intro s k t h
    simp only [orderProcessAll, List.foldl]
    exact ih _ k t (recordedTraded_step s e k t h)

/-- A cell of class `BaseCell`, `BidCell` or `AskCell` has no `set_content`
method, so calling it raises `AttributeError`. -/
theorem setContent_no_method (cl : CellClass) (c : Content)
    (hc : cl = .base ∨ cl = .bid ∨ cl = .ask) :
    setContent cl c = .error .attributeError := by
  rcases hc with h | h | h <;> rw [h] <;> rfl

/-- If some updatable column of a full-width row uses `BaseCell`, `BidCell`
or `AskCell`, the `update_old_row` loop ends with a raised exception. -/
theorem updateCells_err {δ : Type} (d : δ) :
    ∀ (hs : List (HeaderSpec δ)) (cs : List (Cell δ)),
      cs.length = hs.length →
      (∃ h ∈ hs, h.update = true ∧ (h.cls = .base ∨ h.cls = .bid ∨ h.cls = .ask)) →
      (updateCells d hs cs false).2 = true
  | [], _, _, hex => by simp at hex
  | _ :: _, [], hlen, _ => by simp at hlen
  | h :: hs, c :: cs, hlen, hex => by
    have hlen2 : cs.length = hs.length := by simpa using hlen
    rcases hu : h.update with _ | _
    · have hex2 : ∃ h2 ∈ hs, h2.update = true ∧
          (h2.cls = .base ∨ h2.cls = .bid ∨ h2.cls = .ask) := by
        rcases hex with ⟨h2, hmem, hup, hcls⟩
        rcases List.mem_cons.mp hmem with rfl | hmem2
        · rw [hu] at hup
          exact absurd hup (by simp)
        · exact ⟨h2, hmem2, hup, hcls⟩
      simp only [updateCells, hu, Bool.not_false, Bool.or_true, if_true]
      exact updateCells_err d hs cs hlen2 hex2
    · simp only [updateCells, hu, Bool.not_true, Bool.or_false, Bool.false_or, if_false]
      rcases hsc : setContent h.cls (h.get d) with e | o
      · simp [updateCells_true]
      · have hex2 : ∃ h2 ∈ hs, h2.update = true ∧
            (h2.cls = .base ∨ h2.cls = .bid ∨ h2.cls = .ask) := by
          rcases hex with ⟨h2, hmem, hup, hcls⟩
          rcases List.mem_cons.mp hmem with rfl | hmem2
          · rw [setContent_no_method h2.cls (h2.get d) hcls] at hsc
            exact absurd hsc (by simp)
          · exact ⟨h2, hmem2, hup, hcls⟩
        rcases o with _ | t <;> simpa using updateCells_err d hs cs hlen2 hex2

/-- `update_old_row` on the row registered for a seen key ends with a raised
exception whenever some updatable column uses a cell class without
`set_content`. -/
theorem updateFirstRow_err {δ : Type} (hs : List (HeaderSpec δ)) (d : δ) (k : String)
    (hoff : ∃ h ∈ hs, h.update = true ∧ (h.cls = .base ∨ h.cls = .bid ∨ h.cls = .ask)) :
    ∀ rows : List (TableRow δ), (∀ r ∈ rows, r.cells.length = hs.length) →
      rows.any (fun r => r.key = some k) = true →
      (updateFirstRow hs d k rows).2 = true
  | [] => by
    intro _ hany
    simp at hany
  | r :: rs => by
    intro hwf hany
    by_cases hk : r.key = some k
    · simp only [updateFirstRow, if_pos hk]
      exact updateCells_err d hs r.cells (hwf r (by simp)) hoff
    · simp only [updateFirstRow, if_neg hk]
      refine updateFirstRow_err hs d k hoff rs (fun r2 hr2 => hwf r2 (by simp [hr2])) ?_
      simpa [hk] using hany

/-- The cancel-all loop issues exactly as many requests as there are queried
orders. -/
theorem cancelRequests_length :
    ∀ os : List OrderData, (cancelRequests os).length = os.length
  | [] => rfl
  | o :: os => by simp [cancelRequests, cancelRequests_length os]

/-- Pairing the issued requests with the queried orders position by position:
each request is the cancel request of its order, routed to the gateway name
recorded on that order. -/
theorem cancelRequests_zip :
    ∀ os : List OrderData, ∀ p ∈ (cancelRequests os).zip os,
      p.1 = (create_cancel_request p.2, p.2.gateway_name)
  | [] => by
    intro p hp
    simp [cancelRequests] at hp
  | o :: os => by
    intro p hp
    rw [cancelRequests, List.zip_cons_cons] at hp
    rcases List.mem_cons.mp hp with rfl | hp2
    · rfl
    · exact cancelRequests_zip os p hp2

/-- The `save_csv` data-row loop emits exactly the visible rows, in table
order. -/
theorem saveRows_eq {δ : Type} :
    ∀ rows : List (TableRow δ),
      saveRows rows = (rows.filter (fun r => !r.hidden)).map (fun r => r.cells.map Cell.text)
  | [] => rfl
  | r :: rs => by
    rcases hb : r.hidden with _ | _
    · simp [saveRows, hb, saveRows_eq rs, List.filter_cons]
    · simp [saveRows, hb, saveRows_eq rs, List.filter_cons]

/-- Claim C1: for every stored order with traded volume `t`, processing a
further order event for the same order key carrying a smaller traded volume
leaves the stored traded volume at `t` (the regressing update is dropped,
not applied); and along every sequence of processed order events the traded
volume recorded for an order key is monotonically non-decreasing.  (In this
source tree the update holds because `update_old_row` raises
`AttributeError` at the `traded` column before mutating anything, so no
update of any kind is ever applied to a stored row.) -/
theorem orderMonitor_traded_monotone :
    (∀ (s : MonState OrderData) (d : OrderData) (t : ℚ),
      recordedTraded s d.vt_orderid = some t → d.traded < t →
      recordedTraded (orderProcessEvent s d).1 d.vt_orderid = some t) ∧
    (∀ (s : MonState OrderData) (es : List OrderData) (k : String) (t t' : ℚ),
      recordedTraded s k = some t →
      recordedTraded (orderProcessAll s es) k = some t' → t ≤ t') := by
  constructor
  · intro s d t h _
    exact recordedTraded_step s d d.vt_orderid t h
  · intro s es k t t' h h2
    rw [recordedTraded_fold es s k t h] at h2
    exact le_of_eq (Option.some.inj h2)

/-- Witness for C1 at the example of the specification: a stored order with
`traded=5` receives an update with `traded=3` and the recorded volume
stays 5. -/
theorem orderMonitor_traded_monotone_witness :
    recordedTraded (orderProcessEvent (emptyMon OrderData) sampleOrderPart).1
        sampleOrderRegress.vt_orderid = some 5 ∧
    sampleOrderRegress.traded < 5 ∧
    recordedTraded
        (orderProcessEvent (orderProcessEvent (emptyMon OrderData) sampleOrderPart).1
          sampleOrderRegress).1
        sampleOrderRegress.vt_orderid = some 5 :=
  ⟨by decide, by decide,
   orderMonitor_traded_monotone.1 (orderProcessEvent (emptyMon OrderData) sampleOrderPart).1
     sampleOrderRegress 5 (by decide) (by decide)⟩

/-- Claim C2 (code bug): processing an event with an unseen key does insert
exactly one new row at the top, but processing a second event with the same
key does not update the row in place — it raises `AttributeError` (the
updatable `traded` column uses `BaseCell`, which has no `set_content`),
leaving every cell of the row unchanged. -/
theorem orderMonitor_upsert_bug :
    (orderProcessEvent (emptyMon OrderData) sampleOrderNew).2 = none ∧
    ((orderProcessEvent (emptyMon OrderData) sampleOrderNew).1.rows.map (fun r => r.key))
      = [some "CTP.1"] ∧
    orderProcessEvent (orderProcessEvent (emptyMon OrderData) sampleOrderNew).1 sampleOrderPart
      = ((orderProcessEvent (emptyMon OrderData) sampleOrderNew).1,
         some PyErr.attributeError) ∧
    recordedTraded
        (orderProcessEvent (orderProcessEvent (emptyMon OrderData) sampleOrderNew).1
          sampleOrderPart).1 "CTP.1" = some 0 :=
  ⟨by decide, by decide, by decide, by decide⟩

/-- Claim C3 (code bug): the active-order monitor processes an order event
whose order is terminal (Cancelled), yet the freshly inserted row is left
visible: after the inherited `process_event` returns, the lookup
`row_cells["volume"]` raises `KeyError` because the `volume` column does not
carry the update flag and so is never registered, and the hide call is never
reached. -/
theorem activeOrderMonitor_visibility_bug :
    (activeProcessEvent (emptyMon OrderData) sampleOrderCancelled).2 = some PyErr.keyError ∧
    ((activeProcessEvent (emptyMon OrderData) sampleOrderCancelled).1.rows.map
        (fun r => r.hidden)) = [false] ∧
    Status.is_active sampleOrderCancelled.status = false :=
  ⟨by decide, by decide, by decide⟩

/-- Claim C4 (code bug): `ConnectDialog.init_ui` stores the accessor method
name string (for a text field, the string "text") as the `field_type`
component, and `ConnectDialog.connect` then calls `field_type(line.text())`;
calling a string raises `TypeError`, which the `except ValueError` handler
does not catch, so the method aborts before `save_json` writes the record
and before `main_engine.connect` is reached. -/
theorem connectDialog_persist_bug :
    initWidgets [("用户名", FieldDefault.strF "")] = [("用户名", FieldTypeVal.pyStr "text")] ∧
    connectDialogConnect "CTP" (fun _ => "demo") (initWidgets [("用户名", FieldDefault.strF "")])
      = Except.error PyErr.typeError :=
  ⟨rfl, rfl⟩

/-- Claim C5: `TradingWidget.send_order` with an empty symbol field or an
empty volume field shows an error dialog and forwards no order request;
with both filled in it forwards exactly one `OrderRequest` carrying the
entered symbol, exchange, direction, type, volume and price (a blank price
field defaulting to 0) to the selected gateway name. -/
theorem tradingWidget_send_order_validation (w : TradingInputs) :
    (w.symbol = "" → send_order w = .errorDialog "请输入合约代码") ∧
    (w.symbol ≠ "" → w.volume = none → send_order w = .errorDialog "请输入委托数量") ∧
    (∀ v : ℚ, w.symbol ≠ "" → w.volume = some v →
      send_order w = .sent ⟨w.symbol, w.exchange, w.direction, w.orderType, v,
        w.price.getD 0, w.offset, "ManualTrading"⟩ w.gateway) := by
  refine ⟨?_, ?_, ?_⟩
  · intro h
    simp [send_order, h]
  · intro h hv
    simp [send_order, h, hv]
  · intro v h hv
    simp [send_order, h, hv]

/-- Witness for C5: a filled-in form sends exactly one request with price
defaulting to 0; a form without volume fails with the dialog. -/
theorem tradingWidget_send_order_validation_witness :
    send_order sampleInputs
      = .sent ⟨"rb2401", "SHFE", "多", "限价", 2, 0, "开", "ManualTrading"⟩ "CTP" ∧
    send_order sampleInputsNoVolume = .errorDialog "请输入委托数量" :=
  ⟨(tradingWidget_send_order_validation sampleInputs).2.2 2 (by decide) rfl,
   (tradingWidget_send_order_validation sampleInputsNoVolume).2.1 (by decide) rfl⟩

/-- Claim C6: `TradingWidget.cancel_all` leaves the canonical collections
untouched and issues exactly one cancel request per order returned by the
all-active-orders query, each routed to the gateway name recorded on that
order. -/
theorem tradingWidget_cancel_all_routes (s : MainEngineState) :
    (cancel_all s).1 = s ∧
    ((cancel_all s).2).length = (get_all_active_orders s).length ∧
    ∀ p ∈ ((cancel_all s).2).zip (get_all_active_orders s),
      p.1 = (create_cancel_request p.2, p.2.gateway_name) :=
  ⟨rfl, cancelRequests_length _, cancelRequests_zip _⟩

/-- Witness for C6 on a concrete engine state with one active and one
terminal order: the single issued request belongs to the active order and is
routed to its gateway. -/
theorem tradingWidget_cancel_all_routes_witness :
    ((⟨"1", "rb2401", "SHFE"⟩, "CTP"), sampleOrderPart) ∈
      ((cancel_all sampleEngine).2.zip (get_all_active_orders sampleEngine)) ∧
    ((⟨"1", "rb2401", "SHFE"⟩, "CTP") : CancelRequest × String)
      = (create_cancel_request sampleOrderPart, sampleOrderPart.gateway_name) :=
  ⟨by decide,
   (tradingWidget_cancel_all_routes sampleEngine).2.2
     ((⟨"1", "rb2401", "SHFE"⟩, "CTP"), sampleOrderPart) (by decide)⟩

/-- Claim C7: with a single producer, a subscriber of a given event type
receives the events of that type in exactly the order they were enqueued
(per-type FIFO delivery by the single delivery thread). -/
theorem eventEngine_per_type_fifo (subs : String → List Nat) (puts : List EEvent)
    (t : String) (h : Nat) (hsub : h ∈ subs t) :
    (runEngine subs puts h).filter (fun e => e.etype == t)
      = puts.filter (fun e => e.etype == t) := by
  induction puts with
  | nil => rfl
  | cons e es ih =>
    by_cases ht : e.etype = t
    · subst ht
      rw [runEngine, if_pos hsub]
      simp [List.filter_cons, ih]
    · by_cases hd : h ∈ subs e.etype
      · rw [runEngine, if_pos hd]
        simp [List.filter_cons, ht, ih]
      · rw [runEngine, if_neg hd]
        simp [List.filter_cons, ht, ih]

/-- Witness for C7: handler 0, subscribed to tick events, receives the two
tick events of a mixed three-event enqueue order in enqueue order. -/
theorem eventEngine_per_type_fifo_witness :
    0 ∈ sampleSubs "eTick" ∧
    (runEngine sampleSubs samplePuts 0).filter (fun e => e.etype == "eTick")
      = samplePuts.filter (fun e => e.etype == "eTick") :=
  ⟨by decide, eventEngine_per_type_fifo sampleSubs samplePuts "eTick" 0 (by decide)⟩

/-- Claim C8: for every monitor with a non-empty data key whose updatable
columns include a cell class defining no `set_content` (`BaseCell`,
`BidCell` or `AskCell`), processing an event whose key has already been seen
raises `AttributeError` inside `update_old_row`. -/
theorem update_old_row_raises {δ : Type} (hs : List (HeaderSpec δ)) (kf : δ → String)
    (s : MonState δ) (d : δ)
    (hwf : ∀ r ∈ s.rows, r.cells.length = hs.length)
    (hseen : s.rows.any (fun r => r.key = some (kf d)) = true)
    (hoff : ∃ h ∈ hs, h.update = true ∧ (h.cls = .base ∨ h.cls = .bid ∨ h.cls = .ask)) :
    (processEvent hs (some kf) s d).2 = some PyErr.attributeError := by
  simp only [processEvent]
  rw [if_pos hseen]
  rw [updateFirstRow_err hs d (kf d) hoff s.rows hwf hseen]
  rfl

/-- Witness for C8 on the tick monitor: its first updatable column (`name`)
uses `BaseCell`, so a second tick event for an already-listed `vt_symbol`
raises instead of replacing the row contents. -/
theorem update_old_row_raises_witness :
    (∀ r ∈ (tickProcessEvent (emptyMon TickData) sampleTick1).1.rows,
      r.cells.length = tickHeaders.length) ∧
    ((tickProcessEvent (emptyMon TickData) sampleTick1).1.rows.any
      (fun r => r.key = some (TickData.vt_symbol sampleTick2)) = true) ∧
    (∃ h ∈ tickHeaders, h.update = true ∧
      (h.cls = .base ∨ h.cls = .bid ∨ h.cls = .ask)) ∧
    (tickProcessEvent (tickProcessEvent (emptyMon TickData) sampleTick1).1 sampleTick2).2
      = some PyErr.attributeError :=
  ⟨by decide, by decide, by decide,
   update_old_row_raises tickHeaders TickData.vt_symbol
     (tickProcessEvent (emptyMon TickData) sampleTick1).1 sampleTick2
     (by decide) (by decide) (by decide)⟩

/-- Claim C9: `save_csv` writes exactly one header row holding the display
labels, followed by one data row per visible table row in table order; every
row hidden at export time is omitted. -/
theorem save_csv_visible_rows {δ : Type} (labels : List String) (s : MonState δ) :
    save_csv labels s
      = labels :: ((s.rows.filter (fun r => !r.hidden)).map (fun r => r.cells.map Cell.text)) ∧
    (save_csv labels s).length = 1 + (s.rows.filter (fun r => !r.hidden)).length := by
  constructor
  · simp [save_csv, saveRows_eq]
  · simp [save_csv, saveRows_eq, Nat.add_comm]

/-- Claim C10: importing src/vnpy/chart/widget.py always raises `NameError`,
because the `ChartWidget` class body evaluates the undefined name
`ObjectDict` while declaring its signal; hence no `ChartWidget` instance can
ever be constructed. -/
theorem chart_widget_import_name_error :
    importChartWidgetModule = Except.error (PyErr.nameError "ObjectDict") := rfl

end VnpyUI
